import Mathlib

/-!
# Verification of `src/server.js`

A shallow embedding of the Express backend in `src/server.js`: the users
table, the bcrypt and jsonwebtoken libraries (abstracted as structures
carrying their documented guarantees), the auth middleware `verifyToken`,
and the three POST handlers (`/api/auth/signup`, `/api/auth/login`,
`/api/chat`).  Request-body fields are modelled as `Option String` (absent
field = `none`), and JavaScript falsiness of a field value (`!x`) as
`falsy` below.  The upstream model API call in the chat handler is
modelled as an explicit parameter (`Except String (List Block)`), and the
handler reports whether the upstream call was issued.
-/

namespace Server

/-- JavaScript falsiness of an optional string field: `!x` is true when the
field is absent (`undefined`) or the empty string. -/
def falsy : Option String → Bool
  | none => true
  | some s => s == ""

/-- A row of the `users` table (line 22: id SERIAL, name, email UNIQUE,
password).  `password` stores the bcrypt hash.  `created_at` is never read
by any endpoint and is omitted. -/
structure UserRow where
  id : Nat
  name : String
  email : String
  password : String
  deriving Repr, DecidableEq

/-- The users table plus the SERIAL sequence for `id`.  The `chats` and
`messages` tables are created by `initDb` but never read or written by any
endpoint, so they are not modelled. -/
structure Db where
  users : List UserRow
  nextId : Nat
  deriving Repr, DecidableEq

/-- The JWT payload signed at lines 92 and 126: `{ userId, email }`.  The
JWT payload format also admits a registered `exp` (expiry) claim, which
`jwt.verify` would check against the current time; the server never sets
it, so tokens issued here always have `exp = none`. -/
structure Claims where
  userId : Nat
  email : String
  exp : Option Nat := none
  deriving Repr, DecidableEq

/-- The `bcryptjs` library, abstracted: `hash` is `bcrypt.hash(·, 10)` and
`compare` is `bcrypt.compare`.  `compare_hash` is the library's round-trip
guarantee; `hash_ne` records that a bcrypt hash string (60 characters
starting with `$2`) is never the plaintext itself. -/
structure Bcrypt where
  hash : String → String
  compare : String → String → Bool
  compare_hash : ∀ p, compare p (hash p) = true
  hash_ne : ∀ p, hash p ≠ p

/-- The `jsonwebtoken` library, abstracted.  `sign c s` serializes and
signs the payload `c` with secret `s`; `verify t s now` checks the
signature (and the `exp` claim, if present, against the time `now`) and
returns the payload.  Its argument is an `Option` because the middleware
can pass `undefined` (a missing split component), on which `jwt.verify`
throws: `verify_undef`.  `verify_sign` is the round-trip guarantee for
expiry-free tokens, valid at every time.  `sign_no_space`: a JWT compact
serialization is base64url dot-separated and never contains a space. -/
structure Jwt where
  sign : Claims → String → String
  verify : Option String → String → Nat → Option Claims
  verify_undef : ∀ s now, verify none s now = none
  verify_sign : ∀ c s now, c.exp = none → verify (some (sign c s)) s now = some c
  sign_no_space : ∀ c s, ' ' ∉ (sign c s).data

/-- A JSON response body, restricted to the shapes the modelled endpoints
produce: `{error}` (signup/login/chat failures), `{token, user}` with the
user's public fields `id`, `name`, `email` (lines 97 and 131 — note the
object literal contains exactly these three fields, never the password
hash), and `{reply}` (line 167). -/
inductive Body where
  | err (msg : String)
  | auth (token : String) (id : Nat) (name : String) (email : String)
  | reply (text : String)
  deriving Repr, DecidableEq

/-- An HTTP response: status code and JSON body. -/
structure Response where
  status : Nat
  body : Body
  deriving Repr, DecidableEq

/-- JavaScript `s.split(' ')`: splitting on a single-character separator,
with adjacent separators yielding empty strings and `""` splitting to
`[""]`.  This coincides with `List.splitOn` on the character data. -/
def jsSplit (sep : Char) (s : String) : List String :=
  (s.data.splitOn sep).map List.asString

/-- Result of the auth middleware `verifyToken` (line 63): either an early
401 response, or the decoded claims attached as `req.user`. -/
inductive AuthResult where
  | noToken
  | invalidToken
  | ok (c : Claims)
  deriving Repr, DecidableEq

/-- The auth middleware (lines 63–74).  `!auth` is true for an absent or
empty header (401 "No token"); otherwise `auth.split(' ')[1]` is passed to
`jwt.verify`, whose failure (including on an `undefined` component) is
caught as 401 "Invalid token". -/
def verifyToken (J : Jwt) (secret : String) (now : Nat) (auth : Option String) :
    AuthResult :=
  match auth with
  | none => .noToken
  | some a =>
    if a = "" then .noToken
    else
      match J.verify (jsSplit ' ' a)[1]? secret now with
      | none => .invalidToken
      | some c => .ok c

/-- `POST /api/auth/signup` (lines 77–105).  Falsy `name`/`email`/`password`
→ 400 "Missing required fields"; the INSERT hits the UNIQUE constraint on
`email` → error code 23505 → 400 "Email already exists" (the SERIAL
sequence still advances, having been consumed before the constraint
check); otherwise the row is inserted with the bcrypt hash, a token is
signed over `{userId, email}`, and 201 `{token, user:{id, name, email}}`
is returned. -/
def signup (B : Bcrypt) (J : Jwt) (secret : String) (db : Db)
    (name email password : Option String) : Db × Response :=
  if falsy name || falsy email || falsy password then
    (db, ⟨400, .err "Missing required fields"⟩)
  else
    let n := name.getD ""
    let e := email.getD ""
    let p := password.getD ""
    let h := B.hash p
    if db.users.any (fun u => u.email == e) then
      ({ db with nextId := db.nextId + 1 }, ⟨400, .err "Email already exists"⟩)
    else
      let row : UserRow := ⟨db.nextId, n, e, h⟩
      let tok := J.sign ⟨row.id, row.email, none⟩ secret
      (⟨db.users ++ [row], db.nextId + 1⟩, ⟨201, .auth tok row.id row.name row.email⟩)

/-- `POST /api/auth/login` (lines 107–136).  Falsy `email`/`password` →
400 "Missing email or password"; `SELECT * FROM users WHERE email = $1`
with no row, or `bcrypt.compare` false → 401 "Invalid credentials";
otherwise a token signed over `{userId, email}` and
200 `{token, user:{id, name, email}}`.  The database is not modified. -/
def login (B : Bcrypt) (J : Jwt) (secret : String) (db : Db)
    (email password : Option String) : Response :=
  if falsy email || falsy password then
    ⟨400, .err "Missing email or password"⟩
  else
    let e := email.getD ""
    let p := password.getD ""
    match db.users.find? (fun u => u.email == e) with
    | none => ⟨401, .err "Invalid credentials"⟩
    | some u =>
      if B.compare p u.password then
        ⟨200, .auth (J.sign ⟨u.id, u.email, none⟩ secret) u.id u.name u.email⟩
      else
        ⟨401, .err "Invalid credentials"⟩

/-- A content block of the upstream model API response (`response.content`
at line 165): a `type` tag and, for text blocks, the `text` field. -/
structure Block where
  type : String
  text : String
  deriving Repr, DecidableEq

/-- Outcome of the chat handler: the HTTP response, plus whether a request
was issued to the upstream model API (`client.messages.create`). -/
structure ChatOutcome where
  response : Response
  upstreamCalled : Bool
  deriving Repr, DecidableEq

/-- The JavaScript TypeError message raised at line 165 when
`response.content` is empty and `response.content[0].type` is read. -/
def undefTypeMsg : String := "Cannot read properties of undefined (reading 'type')"

/-- `POST /api/chat` (lines 141–172), behind `verifyToken`.  A falsy
`message` → 400 "No message provided" with no upstream call; otherwise the
upstream is called.  An upstream rejection is caught → 500 with the raw
error message.  On a fulfilled response, `content[0].type === 'text'`
selects `content[0].text`, any other type the fallback string; an empty
`content` array makes the member access on `content[0]` (undefined) throw,
which the same catch maps to 500. -/
def chat (J : Jwt) (secret : String) (now : Nat) (auth : Option String)
    (message : Option String) (upstream : Except String (List Block)) :
    ChatOutcome :=
  match verifyToken J secret now auth with
  | .noToken => ⟨⟨401, .err "No token"⟩, false⟩
  | .invalidToken => ⟨⟨401, .err "Invalid token"⟩, false⟩
  | .ok _ =>
    if falsy message then ⟨⟨400, .err "No message provided"⟩, false⟩
    else
      match upstream with
      | .error e => ⟨⟨500, .err e⟩, true⟩
      | .ok blocks =>
        match blocks[0]? with
        | none => ⟨⟨500, .err undefTypeMsg⟩, true⟩
        | some b =>
          ⟨⟨200, .reply (if b.type == "text" then b.text else "Could not understand response")⟩,
            true⟩

/-! ## Reference instances of the library abstractions

Concrete, computable models of `bcryptjs` and `jsonwebtoken` used to
instantiate the theorems at closed inputs.  The JWT model serializes the
payload over the space-free alphabet `{a, b, c, n, e}` with a unary/
terminator code, so signing and verification round-trip by construction
and tokens never contain a space. -/

/-- Unary code of one segment of characters: each character `x` becomes
`'a'^(x.toNat)` followed by `'b'`, and the segment is terminated by `'c'`. -/
def encSeg (s : List Char) : List Char :=
  s.foldr (fun x acc => List.replicate x.toNat 'a' ++ 'b' :: acc) ['c']

/-- Decoder for `encSeg`: `n` counts the `'a'`s of the current character;
returns the decoded segment and the remainder of the input. -/
def decSeg : Nat → List Char → Option (List Char × List Char)
  | n, 'a' :: r => decSeg (n + 1) r
  | n, 'b' :: r => (decSeg 0 r).map (fun q => (Char.ofNat n :: q.1, q.2))
  | n, 'c' :: r => if n = 0 then some ([], r) else none
  | _, _ => none

/-- Unary code of a natural number, terminated by `'c'`. -/
def natSeg (n : Nat) : List Char :=
  List.replicate n 'a' ++ ['c']

/-- Decoder for `natSeg`. -/
def decNat : Nat → List Char → Option (Nat × List Char)
  | n, 'a' :: r => decNat (n + 1) r
  | n, 'c' :: r => some (n, r)
  | _, _ => none

/-- Code of the optional expiry claim: `'n'` for absent, `'e'` plus a
`natSeg` for a concrete expiry time. -/
def expSeg : Option Nat → List Char
  | none => ['n']
  | some k => 'e' :: natSeg k

/-- Decoder for `expSeg`. -/
def decExp : List Char → Option (Option Nat × List Char)
  | 'n' :: r => some (none, r)
  | 'e' :: r => (decNat 0 r).map (fun q => (some q.1, q.2))
  | _ => none

theorem asString_data (l : List Char) : l.asString.data = l := rfl

theorem data_asString (s : String) : s.data.asString = s := rfl

theorem decSeg_replicate (k : Nat) :
    ∀ n r, decSeg n (List.replicate k 'a' ++ r) = decSeg (n + k) r := by
  induction k with
  | zero => intro n r; simp
  | succ k ih =>
    intro n r
    rw [List.replicate_succ, List.cons_append]
    show decSeg (n + 1) (List.replicate k 'a' ++ r) = _
    rw [ih]
    congr 1
    omega

theorem decNat_replicate (k : Nat) :
    ∀ n r, decNat n (List.replicate k 'a' ++ r) = decNat (n + k) r := by
  induction k with
  | zero => intro n r; simp
  | succ k ih =>
    intro n r
    rw [List.replicate_succ, List.cons_append]
    show decNat (n + 1) (List.replicate k 'a' ++ r) = _
    rw [ih]
    congr 1
    omega

theorem decSeg_encSeg (s : List Char) :
    ∀ r, decSeg 0 (encSeg s ++ r) = some (s, r) := by
  induction s with
  | nil => intro r; simp [encSeg, decSeg]
  | cons x xs ih =>
    intro r
    have : encSeg (x :: xs) ++ r =
        List.replicate x.toNat 'a' ++ 'b' :: (encSeg xs ++ r) := by
      simp [encSeg]
    rw [this, decSeg_replicate]
    simp [decSeg, ih r]

theorem decNat_natSeg (k : Nat) (r : List Char) :
    decNat 0 (natSeg k ++ r) = some (k, r) := by
  have : natSeg k ++ r = List.replicate k 'a' ++ 'c' :: r := by
    simp [natSeg]
  rw [this, decNat_replicate]
  simp [decNat]

theorem decExp_expSeg (o : Option Nat) (r : List Char) :
    decExp (expSeg o ++ r) = some (o, r) := by
  cases o with
  | none => simp [expSeg, decExp]
  | some k => simp [expSeg, decExp, decNat_natSeg]

theorem space_not_mem_encSeg (s : List Char) : ' ' ∉ encSeg s := by
  induction s with
  | nil => simp [encSeg]
  | cons x xs ih =>
    intro hmem
    have : encSeg (x :: xs) =
        List.replicate x.toNat 'a' ++ 'b' :: encSeg xs := by
      simp [encSeg]
    rw [this] at hmem
    rcases List.mem_append.mp hmem with h | h
    · exact absurd (List.eq_of_mem_replicate h) (by decide)
    · rcases List.mem_cons.mp h with h | h
      · exact absurd h (by decide)
      · exact ih h

theorem space_not_mem_natSeg (k : Nat) : ' ' ∉ natSeg k := by
  intro hmem
  rcases List.mem_append.mp hmem with h | h
  · exact absurd (List.eq_of_mem_replicate h) (by decide)
  · simp at h

theorem space_not_mem_expSeg (o : Option Nat) : ' ' ∉ expSeg o := by
  cases o with
  | none => simp [expSeg]
  | some k =>
    intro hmem
    rcases List.mem_cons.mp hmem with h | h
    · exact absurd h (by decide)
    · exact space_not_mem_natSeg k h

/-- Reference JWT token: secret segment, then userId, email and expiry. -/
def refSign (c : Claims) (s : String) : String :=
  List.asString (encSeg s.data ++ natSeg c.userId ++ encSeg c.email.data ++ expSeg c.exp)

/-- Reference JWT verification: decode the four components, check the
secret, and reject a present expiry that is not in the future. -/
def refVerify (tok : Option String) (secret : String) (now : Nat) : Option Claims :=
  match tok with
  | none => none
  | some t =>
    match decSeg 0 t.data with
    | none => none
    | some (sec, r1) =>
      if sec = secret.data then
        match decNat 0 r1 with
        | none => none
        | some (uid, r2) =>
          match decSeg 0 r2 with
          | none => none
          | some (em, r3) =>
            match decExp r3 with
            | some (none, []) => some ⟨uid, List.asString em, none⟩
            | some (some k, []) =>
              if now < k then some ⟨uid, List.asString em, some k⟩ else none
            | _ => none
      else none

theorem refVerify_refSign (c : Claims) (s : String) (now : Nat) (h : c.exp = none) :
    refVerify (some (refSign c s)) s now = some c := by
  obtain ⟨uid, em, exp⟩ := c
  simp only at h
  subst h
  have h1 : (refSign ⟨uid, em, none⟩ s).data
      = encSeg s.data ++ (natSeg uid ++ (encSeg em.data ++ (expSeg none ++ []))) := by
    simp [refSign, asString_data, List.append_assoc]
  simp only [refVerify, h1, decSeg_encSeg, decNat_natSeg, decExp_expSeg, if_pos,
    data_asString]

theorem refSign_no_space (c : Claims) (s : String) : ' ' ∉ (refSign c s).data := by
  intro hmem
  simp only [refSign] at hmem
  rcases List.mem_append.mp hmem with h | h
  · rcases List.mem_append.mp h with h | h
    · rcases List.mem_append.mp h with h | h
      · exact space_not_mem_encSeg _ h
      · exact space_not_mem_natSeg _ h
    · exact space_not_mem_encSeg _ h
  · exact space_not_mem_expSeg _ h

/-- The reference instance of the `jsonwebtoken` abstraction. -/
def refJwt : Jwt where
  sign := refSign
  verify := refVerify
  verify_undef := fun _ _ => rfl
  verify_sign := refVerify_refSign
  sign_no_space := refSign_no_space

/-- Reference bcrypt: the "hash" tags the password with a marker character
(a stand-in for the real `$2a$10$<salt><digest>` format: deterministic,
distinct from the plaintext, and recognizable by `compare`). -/
def refHash (p : String) : String :=
  List.asString ('#' :: p.data)

theorem refHash_ne (p : String) : refHash p ≠ p := by
  intro h
  have hd : ('#' :: p.data).length = p.data.length := by
    rw [show ('#' :: p.data) = (refHash p).data from rfl, h]
  simp at hd

/-- The reference instance of the `bcryptjs` abstraction. -/
def refBcrypt : Bcrypt where
  hash := refHash
  compare := fun p h => h == refHash p
  compare_hash := fun p => by simp
  hash_ne := refHash_ne

/-! ## Helper lemmas -/

/-- A signup with nonempty fields and a fresh email inserts the row (with
the bcrypt hash as the stored password), advances the id sequence, and
returns 201 with a token over `{userId, email}` and the public fields. -/
theorem signup_success (B : Bcrypt) (J : Jwt) (secret : String) (db : Db)
    (n e p : String) (hn : n ≠ "") (he : e ≠ "") (hp : p ≠ "")
    (hfresh : db.users.any (fun u => u.email == e) = false) :
    signup B J secret db (some n) (some e) (some p) =
      (⟨db.users ++ [⟨db.nextId, n, e, B.hash p⟩], db.nextId + 1⟩,
        ⟨201, .auth (J.sign ⟨db.nextId, e, none⟩ secret) db.nextId n e⟩) := by
  simp [signup, falsy, hn, he, hp, hfresh]

/-- Appending a row with the sought email to a list with no such email
makes `find?` return exactly that row. -/
theorem find?_fresh_append (l : List UserRow) (row : UserRow) (e : String)
    (hfresh : l.any (fun u => u.email == e) = false) (hrow : row.email = e) :
    (l ++ [row]).find? (fun u => u.email == e) = some row := by
  rw [List.find?_append]
  have h1 : l.find? (fun u => u.email == e) = none :=
    List.find?_eq_none.mpr (fun x hx => by
      have := (List.any_eq_false.mp hfresh) x hx
      simpa using this)
  simp [h1, List.find?, hrow]

/-- JavaScript `("Bearer " ++ t).split(' ')` is `["Bearer", t]` whenever
the token `t` contains no space. -/
theorem jsSplit_bearer (t : String) (h : ' ' ∉ t.data) :
    jsSplit ' ' ("Bearer " ++ t) = ["Bearer", t] := by
  have hdata : ("Bearer " ++ t).data = "Bearer".data ++ ' ' :: t.data := by
    rw [String.data_append]
    rfl
  have hsep : (fun x => x == ' ') ' ' = true := by decide
  have hbearer : ∀ x ∈ "Bearer".data, ¬((fun x => x == ' ') x = true) := by decide
  have ht : ∀ x ∈ t.data, ¬((fun x => x == ' ') x = true) := by
    intro x hx hbeq
    exact h (eq_of_beq hbeq ▸ hx)
  simp only [jsSplit, hdata, List.splitOn]
  rw [List.splitOnP_first _ _ hbearer ' ' hsep t.data, List.splitOnP_eq_single _ _ ht]
  simp only [List.map_cons, List.map_nil, data_asString]
  rfl

/-- The auth middleware accepts `Bearer <token>` for a token signed with
the matching secret over expiry-free claims, attaching those claims. -/
theorem verifyToken_bearer (J : Jwt) (secret : String) (now : Nat) (c : Claims)
    (hexp : c.exp = none) :
    verifyToken J secret now (some ("Bearer " ++ J.sign c secret)) = .ok c := by
  have hne : ("Bearer " ++ J.sign c secret) ≠ "" := by
    intro hcontr
    have hd := congrArg String.data hcontr
    rw [String.data_append] at hd
    simp at hd
  simp only [verifyToken, if_neg hne]
  rw [jsSplit_bearer _ (J.sign_no_space c secret)]
  simp [J.verify_sign c secret now hexp]

/-! ## Claims -/

set_option maxRecDepth 100000

/-- C1: a valid signup with a fresh email returns 201 with a token over
`{userId, email}`; a subsequent login with the same email and password
succeeds with status 200 and the same token; the verifier decodes that
token back to exactly `{userId, email}` of the signed-up user, and the
auth middleware, given `Bearer <token>`, recovers those claims — a
round-trip from issuance to verification. -/
theorem claim1_signup_login_token_roundtrip
    (B : Bcrypt) (J : Jwt) (secret : String) (db : Db) (n e p : String)
    (now : Nat) (hn : n ≠ "") (he : e ≠ "") (hp : p ≠ "")
    (hfresh : db.users.any (fun u => u.email == e) = false) :
    (signup B J secret db (some n) (some e) (some p)).2 =
      ⟨201, .auth (J.sign ⟨db.nextId, e, none⟩ secret) db.nextId n e⟩ ∧
    login B J secret (signup B J secret db (some n) (some e) (some p)).1
        (some e) (some p) =
      ⟨200, .auth (J.sign ⟨db.nextId, e, none⟩ secret) db.nextId n e⟩ ∧
    J.verify (some (J.sign ⟨db.nextId, e, none⟩ secret)) secret now =
      some ⟨db.nextId, e, none⟩ ∧
    verifyToken J secret now
        (some ("Bearer " ++ J.sign ⟨db.nextId, e, none⟩ secret)) =
      .ok ⟨db.nextId, e, none⟩ := by
  rw [signup_success B J secret db n e p hn he hp hfresh]
  refine ⟨rfl, ?_, J.verify_sign _ secret now rfl, verifyToken_bearer J secret now _ rfl⟩
  simp only [login, falsy, Option.getD_some]
  rw [if_neg (by simp [he, hp])]
  rw [find?_fresh_append db.users _ e hfresh rfl]
  simp [B.compare_hash]

theorem claim1_signup_login_token_roundtrip_w :
    login refBcrypt refJwt "s"
        (signup refBcrypt refJwt "s" ⟨[], 1⟩ (some "Ada") (some "ada@x.com")
          (some "pw")).1 (some "ada@x.com") (some "pw") =
      ⟨200, .auth (refJwt.sign ⟨1, "ada@x.com", none⟩ "s") 1 "Ada" "ada@x.com"⟩ :=
  (claim1_signup_login_token_roundtrip refBcrypt refJwt "s" ⟨[], 1⟩
    "Ada" "ada@x.com" "pw" 0 (by decide) (by decide) (by decide) (by decide)).2.1

/-- C2: a login whose email matches no stored user, or whose password does
not match the stored hash of the found user, answers exactly
401 `{error:"Invalid credentials"}` — the same literal response in both
cases, so a caller cannot distinguish a nonexistent account from a wrong
password. -/
theorem claim2_login_failure_indistinguishable
    (B : Bcrypt) (J : Jwt) (secret : String) (db : Db) (e p : String)
    (he : e ≠ "") (hp : p ≠ "")
    (h : ∀ u, db.users.find? (fun u => u.email == e) = some u →
      B.compare p u.password = false) :
    login B J secret db (some e) (some p) = ⟨401, .err "Invalid credentials"⟩ := by
  simp only [login, falsy, Option.getD_some]
  rw [if_neg (by simp [he, hp])]
  cases hfind : db.users.find? (fun u => u.email == e) with
  | none => rfl
  | some u => simp [h u hfind]

theorem claim2_login_failure_indistinguishable_w :
    login refBcrypt refJwt "s" ⟨[⟨1, "Ada", "ada@x.com", refBcrypt.hash "pw"⟩], 2⟩
        (some "ada@x.com") (some "wrong") =
      ⟨401, .err "Invalid credentials"⟩ :=
  claim2_login_failure_indistinguishable refBcrypt refJwt "s"
    ⟨[⟨1, "Ada", "ada@x.com", refBcrypt.hash "pw"⟩], 2⟩ "ada@x.com" "wrong"
    (by decide) (by decide) (by decide)

/-- C3: after a successful signup, a second signup with the same email
(and nonempty fields) hits the UNIQUE constraint and answers
400 `{error:"Email already exists"}`, leaving the users table — in
particular the first user's row — unchanged. -/
theorem claim3_duplicate_signup_conflict
    (B : Bcrypt) (J : Jwt) (secret : String) (db : Db)
    (n e p n2 p2 : String) (hn : n ≠ "") (he : e ≠ "") (hp : p ≠ "")
    (hn2 : n2 ≠ "") (hp2 : p2 ≠ "")
    (hfresh : db.users.any (fun u => u.email == e) = false) :
    (signup B J secret (signup B J secret db (some n) (some e) (some p)).1
        (some n2) (some e) (some p2)).2 =
      ⟨400, .err "Email already exists"⟩ ∧
    (signup B J secret (signup B J secret db (some n) (some e) (some p)).1
        (some n2) (some e) (some p2)).1.users =
      (signup B J secret db (some n) (some e) (some p)).1.users ∧
    (⟨db.nextId, n, e, B.hash p⟩ : UserRow) ∈
      (signup B J secret (signup B J secret db (some n) (some e) (some p)).1
        (some n2) (some e) (some p2)).1.users := by
  rw [signup_success B J secret db n e p hn he hp hfresh]
  have hdup : ((⟨db.users ++ [⟨db.nextId, n, e, B.hash p⟩], db.nextId + 1⟩ : Db)).users.any
      (fun u => u.email == e) = true := by
    simp
  simp only [signup, falsy]
  rw [if_neg (by simp [hn2, he, hp2])]
  simp only [Option.getD_some, hdup, if_pos]
  simp

theorem claim3_duplicate_signup_conflict_w :
    (signup refBcrypt refJwt "s"
        (signup refBcrypt refJwt "s" ⟨[], 1⟩ (some "Ada") (some "ada@x.com")
          (some "pw")).1 (some "Eve") (some "ada@x.com") (some "pw2")).2 =
      ⟨400, .err "Email already exists"⟩ :=
  (claim3_duplicate_signup_conflict refBcrypt refJwt "s" ⟨[], 1⟩
    "Ada" "ada@x.com" "pw" "Eve" "pw2" (by decide) (by decide) (by decide)
    (by decide) (by decide) (by decide)).1

/-- C4: an authenticated `/api/chat` request whose body has no `message`
field answers 400 `{error:"No message provided"}` and issues no upstream
model-API request, whatever the upstream would have returned. -/
theorem claim4_chat_no_message_no_upstream
    (J : Jwt) (secret : String) (now : Nat) (auth : Option String) (c : Claims)
    (upstream : Except String (List Block))
    (hauth : verifyToken J secret now auth = .ok c) :
    chat J secret now auth none upstream =
      ⟨⟨400, .err "No message provided"⟩, false⟩ := by
  simp [chat, hauth, falsy]

theorem claim4_chat_no_message_no_upstream_w :
    chat refJwt "s" 0 (some ("Bearer " ++ refJwt.sign ⟨1, "a", none⟩ "s")) none
        (.ok [⟨"text", "4"⟩]) =
      ⟨⟨400, .err "No message provided"⟩, false⟩ :=
  claim4_chat_no_message_no_upstream refJwt "s" 0
    (some ("Bearer " ++ refJwt.sign ⟨1, "a", none⟩ "s")) ⟨1, "a", none⟩
    (.ok [⟨"text", "4"⟩]) (by decide)

/-- C5: a successful signup responds 201 with a body whose user object
carries exactly the public fields `id`, `name`, `email` (the `Body.auth`
constructor has no password component, mirroring the object literal of
line 97), while the row stored for the user holds the bcrypt hash of the
submitted password — which is never the plaintext itself. -/
theorem claim5_signup_public_fields_hash_stored
    (B : Bcrypt) (J : Jwt) (secret : String) (db : Db) (n e p : String)
    (hn : n ≠ "") (he : e ≠ "") (hp : p ≠ "")
    (hfresh : db.users.any (fun u => u.email == e) = false) :
    (signup B J secret db (some n) (some e) (some p)).2 =
      ⟨201, .auth (J.sign ⟨db.nextId, e, none⟩ secret) db.nextId n e⟩ ∧
    (signup B J secret db (some n) (some e) (some p)).1.users =
      db.users ++ [⟨db.nextId, n, e, B.hash p⟩] ∧
    B.hash p ≠ p := by
  rw [signup_success B J secret db n e p hn he hp hfresh]
  exact ⟨rfl, rfl, B.hash_ne p⟩

theorem claim5_signup_public_fields_hash_stored_w :
    (signup refBcrypt refJwt "s" ⟨[], 1⟩ (some "Ada") (some "ada@x.com")
        (some "pw")).1.users =
      [⟨1, "Ada", "ada@x.com", refBcrypt.hash "pw"⟩] :=
  (claim5_signup_public_fields_hash_stored refBcrypt refJwt "s" ⟨[], 1⟩
    "Ada" "ada@x.com" "pw" (by decide) (by decide) (by decide) (by decide)).2.1

/-- C6: the tokens issued by signup and by login are signed over exactly
`{userId, email}` with no expiry claim (`exp = none`), and such a token
verifies successfully at every later time `now` — validity depends only
on the signature, so a token is valid indefinitely once issued. -/
theorem claim6_tokens_never_expire
    (B : Bcrypt) (J : Jwt) (secret : String) (db db' : Db) (n e p : String)
    (hn : n ≠ "") (he : e ≠ "") (hp : p ≠ "")
    (hfresh : db.users.any (fun u => u.email == e) = false)
    (u : UserRow) (e' p' : String) (he' : e' ≠ "") (hp' : p' ≠ "")
    (hfind : db'.users.find? (fun x => x.email == e') = some u)
    (hcmp : B.compare p' u.password = true) :
    ((signup B J secret db (some n) (some e) (some p)).2 =
        ⟨201, .auth (J.sign ⟨db.nextId, e, none⟩ secret) db.nextId n e⟩ ∧
      (Claims.mk db.nextId e none).exp = none ∧
      ∀ now, J.verify (some (J.sign ⟨db.nextId, e, none⟩ secret)) secret now =
        some ⟨db.nextId, e, none⟩) ∧
    (login B J secret db' (some e') (some p') =
        ⟨200, .auth (J.sign ⟨u.id, u.email, none⟩ secret) u.id u.name u.email⟩ ∧
      (Claims.mk u.id u.email none).exp = none ∧
      ∀ now, J.verify (some (J.sign ⟨u.id, u.email, none⟩ secret)) secret now =
        some ⟨u.id, u.email, none⟩) := by
  refine ⟨⟨?_, rfl, fun now => J.verify_sign _ secret now rfl⟩,
    ⟨?_, rfl, fun now => J.verify_sign _ secret now rfl⟩⟩
  · rw [signup_success B J secret db n e p hn he hp hfresh]
  · simp only [login, falsy, Option.getD_some]
    rw [if_neg (by simp [he', hp'])]
    rw [hfind]
    simp [hcmp]

theorem claim6_tokens_never_expire_w :
    refJwt.verify (some (refJwt.sign ⟨1, "ada@x.com", none⟩ "s")) "s" 999999 =
      some ⟨1, "ada@x.com", none⟩ :=
  (claim6_tokens_never_expire refBcrypt refJwt "s" ⟨[], 1⟩
    ⟨[⟨1, "Ada", "ada@x.com", refBcrypt.hash "pw"⟩], 2⟩ "Ada" "ada@x.com" "pw"
    (by decide) (by decide) (by decide) (by decide)
    ⟨1, "Ada", "ada@x.com", refBcrypt.hash "pw"⟩ "ada@x.com" "pw"
    (by decide) (by decide) (by decide) (by decide)).1.2.2 999999

/-- C7: for an authenticated chat request with a nonempty message, when
the upstream response's first content block exists, the endpoint answers
200 with `{reply}` equal to that block's `text` if the block is
text-typed, and equal to the fixed fallback string otherwise. -/
theorem claim7_chat_first_block_reply
    (J : Jwt) (secret : String) (now : Nat) (auth : Option String) (c : Claims)
    (msg : String) (blocks : List Block) (b : Block)
    (hauth : verifyToken J secret now auth = .ok c) (hmsg : msg ≠ "")
    (hb : blocks[0]? = some b) :
    chat J secret now auth (some msg) (.ok blocks) =
      ⟨⟨200, .reply (if b.type == "text" then b.text
        else "Could not understand response")⟩, true⟩ := by
  simp [chat, hauth, falsy, hmsg, hb]

theorem claim7_chat_first_block_reply_w :
    chat refJwt "s" 0 (some ("Bearer " ++ refJwt.sign ⟨1, "a", none⟩ "s"))
        (some "What is 2+2?") (.ok [⟨"text", "4"⟩]) =
      ⟨⟨200, .reply "4"⟩, true⟩ :=
  claim7_chat_first_block_reply refJwt "s" 0
    (some ("Bearer " ++ refJwt.sign ⟨1, "a", none⟩ "s")) ⟨1, "a", none⟩
    "What is 2+2?" [⟨"text", "4"⟩] ⟨"text", "4"⟩ (by decide) (by decide) rfl

/-- C8 (counterexample to the claim as stated): the claim asserts that
every present `Authorization` header not of the form `Bearer <token>`
is answered 401 `{error:"Invalid token"}`.  But the middleware ignores
the scheme word: a header whose first word is `Basic` — not `Bearer` —
and whose second word is a validly signed token is accepted, with the
decoded claims attached. -/
theorem claim8_scheme_ignored_counterexample :
    (jsSplit ' ' ("Basic " ++ refJwt.sign ⟨1, "a", none⟩ "s"))[0]? = some "Basic" ∧
    "Basic" ≠ "Bearer" ∧
    verifyToken refJwt "s" 0 (some ("Basic " ++ refJwt.sign ⟨1, "a", none⟩ "s")) =
      .ok ⟨1, "a", none⟩ ∧
    AuthResult.ok ⟨1, "a", none⟩ ≠ AuthResult.invalidToken := by
  refine ⟨by decide, by decide, by decide, by decide⟩

/-- C8 (amended): the middleware answers 401 `{error:"No token"}` exactly
when the header is absent or empty.  For a present nonempty header it
extracts the second space-separated word, ignoring the first (scheme)
word entirely: if that word is missing or fails verification the answer
is 401 `{error:"Invalid token"}` (never "No token"), and if it verifies —
whatever the scheme word — the request is accepted with the decoded
claims. -/
theorem claim8_no_token_iff_absent_or_empty
    (J : Jwt) (secret : String) (now : Nat) :
    (∀ auth, verifyToken J secret now auth = .noToken ↔
      (auth = none ∨ auth = some "")) ∧
    (∀ a, a ≠ "" → J.verify (jsSplit ' ' a)[1]? secret now = none →
      verifyToken J secret now (some a) = .invalidToken) ∧
    (∀ a c, a ≠ "" → J.verify (jsSplit ' ' a)[1]? secret now = some c →
      verifyToken J secret now (some a) = .ok c) := by
  refine ⟨fun auth => ?_, fun a ha hv => ?_, fun a c ha hv => ?_⟩
  · constructor
    · intro hres
      cases auth with
      | none => exact Or.inl rfl
      | some a =>
        by_cases ha : a = ""
        · exact Or.inr (ha ▸ rfl)
        · exfalso
          simp only [verifyToken, if_neg ha] at hres
          cases hv : J.verify (jsSplit ' ' a)[1]? secret now with
          | none => rw [hv] at hres; exact absurd hres (by simp)
          | some c => rw [hv] at hres; exact absurd hres (by simp)
    · intro hcase
      rcases hcase with h | h
      · rw [h]; rfl
      · rw [h]; rfl
  · simp [verifyToken, ha, hv]
  · simp [verifyToken, ha, hv]

theorem claim8_no_token_iff_absent_or_empty_w :
    verifyToken refJwt "s" 0 (some "") = .noToken :=
  ((claim8_no_token_iff_absent_or_empty refJwt "s" 0).1 (some "")).mpr
    (Or.inr rfl)

/-- C9: presence validation is JavaScript falsiness, so a field that is
present but equal to the empty string is rejected exactly like an absent
one: signup answers 400 "Missing required fields", login 400 "Missing
email or password", and an authenticated chat request with an empty
message 400 `{error:"No message provided"}` (with no upstream call). -/
theorem claim9_empty_string_fields_rejected
    (B : Bcrypt) (J : Jwt) (secret : String) (db : Db)
    (name email password : Option String) (now : Nat) (auth : Option String)
    (c : Claims) (upstream : Except String (List Block))
    (hauth : verifyToken J secret now auth = .ok c) :
    (name = some "" ∨ email = some "" ∨ password = some "" →
      signup B J secret db name email password =
        (db, ⟨400, .err "Missing required fields"⟩)) ∧
    (email = some "" ∨ password = some "" →
      login B J secret db email password =
        ⟨400, .err "Missing email or password"⟩) ∧
    chat J secret now auth (some "") upstream =
      ⟨⟨400, .err "No message provided"⟩, false⟩ := by
  refine ⟨fun hcase => ?_, fun hcase => ?_, by simp [chat, hauth, falsy]⟩
  · rcases hcase with h | h | h <;> simp [signup, falsy, h]
  · rcases hcase with h | h <;> simp [login, falsy, h]

theorem claim9_empty_string_fields_rejected_w :
    signup refBcrypt refJwt "s" ⟨[], 1⟩ (some "Ada") (some "") (some "pw") =
      (⟨[], 1⟩, ⟨400, .err "Missing required fields"⟩) :=
  (claim9_empty_string_fields_rejected refBcrypt refJwt "s" ⟨[], 1⟩
    (some "Ada") (some "") (some "pw") 0
    (some ("Bearer " ++ refJwt.sign ⟨1, "a", none⟩ "s")) ⟨1, "a", none⟩
    (.ok []) (by decide)).1 (Or.inr (Or.inl rfl))

/-- C10: for an authenticated chat request with a nonempty message, an
upstream response with an empty `content` array makes the handler read
`content[0].type` on `undefined`; the thrown TypeError is caught and
mapped to a 500 error body — not the 200 fallback reply.  The fallback
applies only when a first block exists and is not text-typed. -/
theorem claim10_empty_content_is_500
    (J : Jwt) (secret : String) (now : Nat) (auth : Option String) (c : Claims)
    (msg : String) (hauth : verifyToken J secret now auth = .ok c)
    (hmsg : msg ≠ "") :
    chat J secret now auth (some msg) (.ok []) =
      ⟨⟨500, .err undefTypeMsg⟩, true⟩ ∧
    (∀ blocks b, blocks[0]? = some b → b.type ≠ "text" →
      chat J secret now auth (some msg) (.ok blocks) =
        ⟨⟨200, .reply "Could not understand response"⟩, true⟩) := by
  refine ⟨by simp [chat, hauth, falsy, hmsg], fun blocks b hb hty => ?_⟩
  simp [chat, hauth, falsy, hmsg, hb, hty]

theorem claim10_empty_content_is_500_w :
    chat refJwt "s" 0 (some ("Bearer " ++ refJwt.sign ⟨1, "a", none⟩ "s"))
        (some "hi") (.ok []) =
      ⟨⟨500, .err undefTypeMsg⟩, true⟩ :=
  (claim10_empty_content_is_500 refJwt "s" 0
    (some ("Bearer " ++ refJwt.sign ⟨1, "a", none⟩ "s")) ⟨1, "a", none⟩
    "hi" (by decide) (by decide)).1

end Server
